import Mathlib

/-!
Verification of the supervision/orchestration core of `cardano-launcher`
(`src/cardanoLauncher.ts`, with `common.ts` appended in the same file).

The orchestration logic (class `Launcher`) is embedded shallowly below:
pure fragments become Lean functions, and the event-driven mutable state
(the `exited` flag, the signal-handler cleanup closure, the readiness
poller timer) becomes explicit state passed through step functions.
JavaScript run-to-completion semantics lets every `.then` continuation,
event handler and timer callback be modelled as one atomic state update.

The collaborator module `service.ts` (ServiceStatus, ServiceExitStatus,
serviceExitStatusMessage, setupService) is part of the repository but its
source is not available here; those few definitions are modelled from the
spec and marked `Modelled from the spec:` in their doc comments.
-/

namespace CardanoLauncher

/-- Modelled from the spec: the missing collaborator `service.ts` defines
`ServiceStatus` as an ordered enum, not-started < starting < started <
stopping < stopped, "compared numerically for has-it-progressed-past-X". -/
inductive ServiceStatus where
  | NotStarted
  | Starting
  | Started
  | Stopping
  | Stopped
deriving DecidableEq, Repr

/-- The numeric value of a `ServiceStatus`: in TypeScript the enum members
are the numbers 0..4 and status comparisons are numeric comparisons. -/
def ServiceStatus.num : ServiceStatus → Nat
  | .NotStarted => 0
  | .Starting => 1
  | .Started => 2
  | .Stopping => 3
  | .Stopped => 4

/-- Modelled from the spec: the missing collaborator `service.ts` defines
`ServiceExitStatus`, "the terminal outcome of one managed service — one of
exited normally with code, exited with signal, failed to launch, unknown". -/
inductive ServiceExitStatus where
  | exited (code : Int)
  | signaled (signal : String)
  | failedToLaunch (err : String)
  | unknown
deriving DecidableEq, Repr

/-- Modelled from the spec: the missing collaborator `service.ts` defines
`serviceExitStatusMessage`, which renders each per-service ExitStatus as
one line. The exact wording is not specified; one fixed line per variant. -/
def serviceExitStatusMessage : ServiceExitStatus → String
  | .exited code => "service exited with status " ++ toString code
  | .signaled signal => "service killed with signal " ++ signal
  | .failedToLaunch err => "service failed to launch: " ++ err
  | .unknown => "service exit status unknown"

/-- Combined `ExitStatus` (cardanoLauncher.ts lines 61-64): the result after
the launched backend has finished. Field order as declared in the source:
`wallet` first, then `node`; the object built by `Launcher.stop` (line 297)
uses the same insertion order. -/
structure ExitStatus where
  wallet : ServiceExitStatus
  node : ServiceExitStatus
deriving DecidableEq, Repr

/-- Source function `exitStatusMessage` (cardanoLauncher.ts lines 69-71):
it maps `serviceExitStatusMessage` over the status object and joins the
lines with a newline. Lodash map over an object visits its values in
property insertion order, which for every `ExitStatus` built by this module
is `wallet` then `node`. Total: defined on every `ExitStatus` value. -/
def exitStatusMessage (status : ExitStatus) : String :=
  String.intercalate "\n"
    [serviceExitStatusMessage status.wallet, serviceExitStatusMessage status.node]

/-- The rendering order claimed by the spec ("dependency before dependent"),
written out for comparison with `exitStatusMessage`: the node line first,
then the wallet line. -/
def exitStatusMessageNodeFirst (status : ExitStatus) : String :=
  String.intercalate "\n"
    [serviceExitStatusMessage status.node, serviceExitStatusMessage status.wallet]

/-!
## Signal bridge and the stop path

`Launcher.installSignalHandlers` (lines 311-323) registers one handler for a
fixed signal list and stores a cleanup closure in `this.cleanupSignalHandlers`
(initially `noop`, line 144). `Launcher.stop` (lines 289-306) stops both
services, runs the atomic completion handler (lines 296-305) which may emit
the `exit` event once, and then calls the cleanup closure.
-/

/-- The fixed signal list of `installSignalHandlers` (line 312). -/
def signalList : List String := ["SIGINT", "SIGTERM", "SIGHUP", "SIGBREAK"]

/-- The value stored in the mutable field `this.cleanupSignalHandlers`:
either the closure built by `installSignalHandlers` (lines 319-322) or
`noop` (line 86-88, the initial value at line 144 and the value re-assigned
at line 321). -/
inductive CleanupFn where
  | installedFn
  | noopFn
deriving DecidableEq, Repr

/-- The orchestrator state touched by the stop-completion path: the `exited`
flag (line 141), a count of `exit` emissions on `walletBackend.events`
(line 300), the current cleanup closure, and the log of `process.off` calls
performed so far (line 320, one entry per deregistered signal). -/
structure StopState where
  exited : Bool
  exitEmissions : Nat
  cleanupFn : CleanupFn
  offLog : List String
deriving DecidableEq, Repr

/-- Running `this.cleanupSignalHandlers()` (line 303). If the installed
closure is current (lines 319-322) it calls `process.off` for every signal
in `signalList` and replaces itself with `noop`; the `noop` closure
(lines 86-88) does nothing. -/
def runCleanup (s : StopState) : StopState :=
  match s.cleanupFn with
  | .installedFn =>
      { s with offLog := s.offLog ++ signalList, cleanupFn := .noopFn }
  | .noopFn => s

/-- The atomic completion handler of `Launcher.stop` (lines 296-305): given
the two resolved stop futures `wallet` and `node`, build
`status = { wallet, node }`; if `this.exited` is still false, emit `exit`
with the status and set `this.exited = true`; run the cleanup closure; and
return `status`. JavaScript run-to-completion makes this block atomic. -/
def stopCompletion (wallet node : ServiceExitStatus) (s : StopState) :
    StopState × ExitStatus :=
  let status : ExitStatus := ⟨wallet, node⟩
  let s1 :=
    if s.exited then s
    else { s with exitEmissions := s.exitEmissions + 1, exited := true }
  (runCleanup s1, status)

/-- The stop-path state of a freshly constructed `Launcher` that installed
signal handlers: `exited = false` (line 141), no emission yet, the real
cleanup closure in place (line 319), no `process.off` call yet. -/
def initialStopState : StopState :=
  { exited := false, exitEmissions := 0, cleanupFn := .installedFn, offLog := [] }

/-- A lifetime of stop-completion events: every trigger of `stop()` — an
explicit call, a `statusChanged`-to-Stopped handler (lines 186-198), or the
chain following a signal-handler stop — funnels into one completion-handler
run, each with its own pair of resolved stop results. -/
def runStops : List (ServiceExitStatus × ServiceExitStatus) → StopState → StopState
  | [], s => s
  | (w, n) :: rest, s => runStops rest (stopCompletion w n s).1

/-- The inductive invariant of the stop path: the emission count never
exceeds one, no emission happens while `exited` is false, and the
`process.off` log is empty while the installed closure is current and is
exactly one pass over `signalList` afterwards. -/
def StopInv (s : StopState) : Prop :=
  s.exitEmissions ≤ 1 ∧
  (s.exited = false → s.exitEmissions = 0) ∧
  (s.cleanupFn = .installedFn → s.offLog = []) ∧
  (s.cleanupFn = .noopFn → s.offLog = signalList)

/-- Which service handle a call is made on. -/
inductive ServiceId where
  | wallet
  | node
deriving DecidableEq, Repr

/-- The synchronous body of `Launcher.stop(timeoutSeconds = 60)`
(lines 289-295): it invokes `this.walletService.stop(timeoutSeconds)` and
`this.nodeService.stop(timeoutSeconds)` before awaiting either — both
futures are already running when `Promise.all` receives them — forwarding
the same timeout to each handle. `none` models a call with the argument
omitted, to which the default 60 applies. -/
def stopServiceCalls (timeoutSeconds : Option Nat) : List (ServiceId × Nat) :=
  let t := timeoutSeconds.getD 60
  [(ServiceId.wallet, t), (ServiceId.node, t)]

/-- One action performed by the installed signal handler (lines 313-317). -/
inductive HandlerAction where
  | logSignal (signal : String)
  | stopService (svc : ServiceId) (timeoutSeconds : Nat) (rejectionCaught : Bool)
deriving DecidableEq, Repr

/-- The handler installed for every signal (lines 313-317): log the received
signal, then `this.walletService.stop(0).catch(passthroughErrorLogger)` and
`this.nodeService.stop(0).catch(passthroughErrorLogger)`. The Boolean in
`stopService` records that a rejection handler is attached to that stop
future before the handler returns. -/
def signalHandlerActions (signal : String) : List HandlerAction :=
  [ .logSignal signal,
    .stopService .wallet 0 true,
    .stopService .node 0 true ]

/-- Function `passthroughErrorLogger` (common.ts lines 420-427): logs the
error and a stack trace and returns; it neither rethrows nor fails. -/
def passthroughErrorLogger (err : String) : Unit :=
  let _logged := err
  ()

/-- The effect of `.catch(passthroughErrorLogger)` on a stop future inside
the signal handler (lines 315-316): a fulfilled stop is ignored; a rejected
stop is passed to `passthroughErrorLogger`, which only logs, so the chained
future always succeeds and no exception leaves the handler context. -/
def caughtStopOutcome (outcome : Except String ServiceExitStatus) :
    Except String Unit :=
  match outcome with
  | .ok _ => .ok ()
  | .error e => .ok (passthroughErrorLogger e)

/-- The fragment of `LaunchConfig` that the signal-handler
decision reads (lines 152-157): `installSignalHandlers` is an optional
field; `none` models a config that omits it, so that the destructuring
default applies. -/
structure LaunchConfigSignals where
  installSignalHandlers : Option Bool
deriving DecidableEq, Repr

/-- Constructor lines 154-157 and 200:
`const { installSignalHandlers = true } = config;` followed by
`if (installSignalHandlers) this.installSignalHandlers();` — whether the
constructor installs the process signal handlers. -/
def constructorInstallsHandlers (config : LaunchConfigSignals) : Bool :=
  config.installSignalHandlers.getD true

/-!
## The executor body of Launcher.start

Lines 222-234 run synchronously inside the `Promise` constructor: two
service start invocations, the launch of the readiness poller, then the two
event subscriptions.
-/

/-- One statement of the synchronous executor body of `Launcher.start`
(lines 222-234). -/
inductive StartOp where
  | invokeNodeStart
  | invokeWalletStart
  | invokeWaitForApi
  | subscribeReady
  | subscribeExit
deriving DecidableEq, Repr

/-- The executor body of the promise returned by `Launcher.start`, exactly
in source order: `this.nodeService.start()` (line 223),
`this.walletService.start()` (line 224), `this.waitForApi(...)`
(lines 226-228), `events.on(ready, resolve)` (line 230),
`events.on(exit, ...)` (lines 231-233). -/
def startExecutorBody : List StartOp :=
  [ .invokeNodeStart, .invokeWalletStart, .invokeWaitForApi,
    .subscribeReady, .subscribeExit ]

/-- Whether an executor op registers one of the two event subscriptions. -/
def StartOp.isSubscription : StartOp → Bool
  | .subscribeReady => true
  | .subscribeExit => true
  | _ => false

/-- Whether an executor op is capable of (eventually) triggering a `ready`
or `exit` emission: the two service starts and the poller launch. -/
def StartOp.isTriggerCapable : StartOp → Bool
  | .invokeNodeStart => true
  | .invokeWalletStart => true
  | .invokeWaitForApi => true
  | _ => false

/-- Statement of the claim, following the words of the spec: every
subscription in the executor body is registered at a strictly earlier
position than every trigger-capable operation. To be compared against
`startExecutorBody` as the source defines it. -/
def specSubscriptionsFirst : Prop :=
  ∀ i : Fin startExecutorBody.length, ∀ j : Fin startExecutorBody.length,
    (startExecutorBody.get i).isSubscription = true →
    (startExecutorBody.get j).isTriggerCapable = true →
    (i : Nat) < (j : Nat)

instance : Decidable specSubscriptionsFirst := by
  unfold specSubscriptionsFirst; infer_instance

/-- Kind of an emission on `walletBackend.events`. -/
inductive EmitKind where
  | readyEmit
  | exitEmit
deriving DecidableEq, Repr

/-- State while executing the synchronous executor body: which handlers are
registered on `walletBackend.events`, and which emissions the invoked
operations have scheduled. Modelled from the spec: all operations are
asynchronous (non-blocking) — `nodeService.start`, `walletService.start`
and the `setInterval` of `waitForApi` (line 251, 250 ms period) emit
nothing synchronously, so any `ready` or `exit` they cause is delivered in
a later task, after the executor body has returned. -/
structure StartMachine where
  readyRegistered : Bool
  exitRegistered : Bool
  scheduled : List EmitKind
deriving DecidableEq, Repr

/-- Effect of one executor op on the machine: a trigger-capable op adds the
emissions it will eventually cause (given by the oracle `causes`) to the
scheduled list; a subscription op registers its handler. -/
def execStartOp (causes : StartOp → List EmitKind) (s : StartMachine) :
    StartOp → StartMachine
  | .invokeNodeStart =>
      { s with scheduled := s.scheduled ++ causes .invokeNodeStart }
  | .invokeWalletStart =>
      { s with scheduled := s.scheduled ++ causes .invokeWalletStart }
  | .invokeWaitForApi =>
      { s with scheduled := s.scheduled ++ causes .invokeWaitForApi }
  | .subscribeReady => { s with readyRegistered := true }
  | .subscribeExit => { s with exitRegistered := true }

/-- Machine state when the executor body begins: nothing registered,
nothing scheduled. -/
def initialStartMachine : StartMachine :=
  { readyRegistered := false, exitRegistered := false, scheduled := [] }

/-- Machine state once the whole synchronous executor body has run. -/
def runStartBody (causes : StartOp → List EmitKind) : StartMachine :=
  startExecutorBody.foldl (execStartOp causes) initialStartMachine

/-- Whether one scheduled emission, delivered after the executor body has
returned, finds its handler registered. -/
def emissionDelivered (s : StartMachine) : EmitKind → Bool
  | .readyEmit => s.readyRegistered
  | .exitEmit => s.exitRegistered

/-!
## The dependency-ordered startup chain

`Launcher.makeServiceCommands` (lines 325-337) builds
`node = mkdirp(config.stateDir).then(() => Launcher.nodeExe(...))` and
`wallet = node.then(() => Launcher.walletExe(...))`: the wallet start
command is chained on the node start command. The constructor wires
`statusChanged` observers that call `this.stop()` when either service
reports `Stopped` (lines 186-198), and `Launcher.start` subscribes `exit`
to reject its returned promise (lines 231-233).
-/

/-- Settlement state of a JavaScript promise. -/
inductive PromiseState where
  | pending
  | fulfilled
  | rejected
deriving DecidableEq, Repr

/-- State of the startup chain together with the pieces it interacts with.
Fields `nodeCmd`, `walletExeInvoked` and `walletCmd` model the promises of
`makeServiceCommands` (lines 332-335). `walletSpawned` and the two status
fields are modelled from the spec for the missing `setupService`: a managed
service start operation awaits its start-command future and launches the
process only once that future is fulfilled; a service whose start command
rejects is never launched and reports status Stopped. `stop` is the
stop-path state; `startRejected` says whether the promise returned by
`Launcher.start` has been rejected by its `exit` subscription. -/
structure StartupState where
  nodeCmd : PromiseState
  walletExeInvoked : Bool
  walletCmd : PromiseState
  walletSpawned : Bool
  nodeSvcStatus : ServiceStatus
  walletSvcStatus : ServiceStatus
  stop : StopState
  startRejected : Bool
deriving DecidableEq, Repr

/-- One atomic scheduler event of the startup chain. Each label is one
continuation the JavaScript runtime may run, with its enabling condition
taken from promise semantics and from the source. -/
inductive StartupLabel where
  | nodeCmdResolve
  | nodeCmdReject
  | walletThenRun
  | walletCmdResolve
  | walletCmdRejectChain
  | walletSpawn
  | nodeStartFail
  | walletStartFail
  | statusChangedStop (wallet node : ServiceExitStatus)
deriving DecidableEq, Repr

/-- Effect of one scheduler event; an event whose enabling condition fails
leaves the state unchanged (the runtime never runs it).

* `nodeCmdResolve` and `nodeCmdReject` settle the node start-command
  promise (lines 332-334).
* `walletThenRun` runs the `.then` callback of line 335, invoking
  `Launcher.walletExe`; promise semantics only run it once the node
  command is fulfilled, and only once.
* `walletCmdResolve` fulfils the wallet start command once `walletExe` has
  been invoked; `walletCmdRejectChain` is rejection propagation through
  `.then` when the node command rejected — the callback never runs.
* `walletSpawn` (modelled from the spec) is the wallet service start
  beginning: it requires the wallet start command to be fulfilled.
* `nodeStartFail` and `walletStartFail` (modelled from the spec) move a
  service whose start command rejected to status Stopped.
* `statusChangedStop` is one run of the `this.stop()` chain triggered by a
  `statusChanged`-to-Stopped observer (lines 186-198): the completion
  handler (lines 296-305) runs with the two stop results, and when it
  emits `exit` the subscription of lines 231-233 rejects the promise
  returned by `start`. -/
def startupStep : StartupLabel → StartupState → StartupState
  | .nodeCmdResolve, s =>
      if s.nodeCmd = .pending then { s with nodeCmd := .fulfilled } else s
  | .nodeCmdReject, s =>
      if s.nodeCmd = .pending then { s with nodeCmd := .rejected } else s
  | .walletThenRun, s =>
      if s.nodeCmd = .fulfilled ∧ s.walletExeInvoked = false then
        { s with walletExeInvoked := true }
      else s
  | .walletCmdResolve, s =>
      if s.walletExeInvoked = true ∧ s.walletCmd = .pending then
        { s with walletCmd := .fulfilled }
      else s
  | .walletCmdRejectChain, s =>
      if s.nodeCmd = .rejected ∧ s.walletCmd = .pending then
        { s with walletCmd := .rejected }
      else s
  | .walletSpawn, s =>
      if s.walletCmd = .fulfilled ∧ s.walletSpawned = false then
        { s with walletSpawned := true, walletSvcStatus := .Starting }
      else s
  | .nodeStartFail, s =>
      if s.nodeCmd = .rejected then { s with nodeSvcStatus := .Stopped } else s
  | .walletStartFail, s =>
      if s.walletCmd = .rejected then { s with walletSvcStatus := .Stopped } else s
  | .statusChangedStop w n, s =>
      if s.nodeSvcStatus = .Stopped ∨ s.walletSvcStatus = .Stopped then
        { s with
            stop := (stopCompletion w n s.stop).1,
            startRejected := s.startRejected || !s.stop.exited }
      else s

/-- Startup-chain state of a freshly constructed launcher: both command
promises pending, nothing invoked, both services not started. -/
def initialStartupState : StartupState :=
  { nodeCmd := .pending
    walletExeInvoked := false
    walletCmd := .pending
    walletSpawned := false
    nodeSvcStatus := .NotStarted
    walletSvcStatus := .NotStarted
    stop := initialStopState
    startRejected := false }

/-- Run a sequence of scheduler events from the initial state. -/
def runStartup (labels : List StartupLabel) : StartupState :=
  labels.foldl (fun s l => startupStep l s) initialStartupState

/-- The inductive invariant of the startup chain: the wallet `.then`
callback only runs after the node command fulfils, the wallet command only
fulfils after the callback ran, the wallet service only starts after its
command fulfilled, and a rejected node command forever excludes both. -/
def StartupInv (s : StartupState) : Prop :=
  (s.walletExeInvoked = true → s.nodeCmd = .fulfilled) ∧
  (s.walletCmd = .fulfilled → s.walletExeInvoked = true) ∧
  (s.walletSpawned = true → s.walletCmd = .fulfilled) ∧
  (s.nodeCmd = .rejected → s.walletExeInvoked = false ∧ s.walletSpawned = false)

/-- The deterministic reaction chain the code runs when the node start
command rejects: the node command settles rejected, the node service
reports Stopped, and the `statusChanged` observer drives one `stop()`
completion (with failed-to-launch results for both services). -/
def nodeFailureLabels : List StartupLabel :=
  [ .nodeCmdReject,
    .nodeStartFail,
    .statusChangedStop (ServiceExitStatus.failedToLaunch "wallet")
      (ServiceExitStatus.failedToLaunch "node") ]

/-!
## The readiness poller

`Launcher.waitForApi` (lines 246-276) runs a 250 ms `setInterval` timer.
Each timer callback first evaluates the stop predicate (line 252); if it is
true the interval is cleared and nothing else happens — in particular the
stop branch does NOT destroy an in-flight `client` socket: `client.destroy()`
runs only at lines 262-264, at the start of the next connection attempt.
Otherwise, once `this.apiPort` is known, the callback records the address on
first use, destroys the previous client, creates a new socket and starts a
connection attempt; the attempt completes asynchronously, in a later task:
its success callback (lines 266-270) clears the interval and invokes the
ready callback, and its error handler (lines 271-273) only logs. The timer
callback and each socket callback are therefore separate atomic events.
-/

/-- Predicate `stopWaiting` (lines 218-220):
`nodeService.getStatus() > ServiceStatus.Started ||
walletService.getStatus() > ServiceStatus.Started`, with the numeric enum
comparison of TypeScript. -/
def stopWaiting (nodeStatus walletStatus : ServiceStatus) : Bool :=
  decide (ServiceStatus.num ServiceStatus.Started < ServiceStatus.num nodeStatus) ||
  decide (ServiceStatus.num ServiceStatus.Started < ServiceStatus.num walletStatus)

/-- Poller state: whether the interval timer is still installed, whether
the `addr` local has been set (lines 255-260), whether a connection attempt
is in flight (a live `client` socket whose callbacks may still run), and
whether the ready callback has fired. -/
structure PollerState where
  timerActive : Bool
  addrSet : Bool
  pendingAttempt : Bool
  readyFired : Bool
deriving DecidableEq, Repr

/-- One atomic scheduler event of the poller: a timer callback run (carrying
what it observes: both service statuses read by the stop predicate and the
current `this.apiPort`, 0 while unknown, line 138), or the asynchronous
completion of the in-flight connection attempt (success or error). -/
inductive PollEvent where
  | timerTick (nodeStatus walletStatus : ServiceStatus) (apiPort : Nat)
  | connectSuccess
  | connectError
deriving DecidableEq, Repr

/-- Effect of one poller event (lines 251-275).

* A `timerTick` runs only while the interval is installed (`clearInterval`
  stops further callbacks). It checks the stop predicate first (line 252):
  if true it clears the interval and nothing else — the in-flight socket,
  if any, is left alive (the `client.destroy()` of lines 262-264 is in the
  other branch). Otherwise, when the port is known, it records the address,
  destroys any previous client (ending that attempt) and starts a new one.
* `connectSuccess` is the success callback of the in-flight attempt
  (lines 266-270): it clears the interval and fires the ready callback —
  whether or not the interval was already cleared by a stop tick.
* `connectError` is the error handler of the in-flight attempt
  (lines 271-273): it only logs; the attempt is over. -/
def pollStep : PollEvent → PollerState → PollerState
  | .timerTick ns ws port, s =>
      if s.timerActive = false then s
      else if stopWaiting ns ws then { s with timerActive := false }
      else if port ≠ 0 then
        { s with addrSet := true, pendingAttempt := true }
      else s
  | .connectSuccess, s =>
      if s.pendingAttempt then
        { s with pendingAttempt := false, timerActive := false,
                 readyFired := true }
      else s
  | .connectError, s =>
      if s.pendingAttempt then { s with pendingAttempt := false } else s

/-- Poller state right after `waitForApi` installs the interval timer. -/
def initialPollerState : PollerState :=
  { timerActive := true, addrSet := false, pendingAttempt := false,
    readyFired := false }

/-- Run a sequence of poller events from a given state. -/
def runPollFrom (events : List PollEvent) (s : PollerState) : PollerState :=
  events.foldl (fun t e => pollStep e t) s

/-- Run a sequence of poller events from the initial state. -/
def runPoll (events : List PollEvent) : PollerState :=
  runPollFrom events initialPollerState

/-- The racing schedule the source admits: one tick starts a connection
attempt; the next tick sees the stop predicate true and clears the interval
while the socket is still in flight (the stop branch runs only
`clearInterval`, line 253); the pending attempt then succeeds and its
callback fires ready. -/
def pollerRaceTrace : List PollEvent :=
  [ PollEvent.timerTick ServiceStatus.Started ServiceStatus.Started 8090,
    PollEvent.timerTick ServiceStatus.Stopping ServiceStatus.Started 8090,
    PollEvent.connectSuccess ]

/-!
## Helper lemmas
-/

theorem stopInv_initial : StopInv initialStopState := by
  refine ⟨by decide, fun _ => rfl, fun _ => rfl, fun h => ?_⟩
  simp [initialStopState] at h

theorem stopInv_stopCompletion (w n : ServiceExitStatus) (s : StopState)
    (h : StopInv s) : StopInv (stopCompletion w n s).1 := by
  obtain ⟨h1, h2, h3, h4⟩ := h
  unfold stopCompletion runCleanup
  by_cases hex : s.exited <;>
    cases hcf : s.cleanupFn <;>
    simp_all [StopInv, signalList]

theorem stopInv_runStops (l : List (ServiceExitStatus × ServiceExitStatus))
    (s : StopState) (h : StopInv s) : StopInv (runStops l s) := by
  induction l generalizing s with
  | nil => exact h
  | cons p rest ih => exact ih _ (stopInv_stopCompletion p.1 p.2 s h)

theorem startupInv_initial : StartupInv initialStartupState := by
  refine ⟨?_, ?_, ?_, ?_⟩ <;> intro h <;> simp [initialStartupState] at h

theorem startupInv_step (l : StartupLabel) (s : StartupState)
    (h : StartupInv s) : StartupInv (startupStep l s) := by
  obtain ⟨h1, h2, h3, h4⟩ := h
  unfold StartupInv
  cases l <;> simp only [startupStep] <;> split_ifs <;>
    refine ⟨?_, ?_, ?_, ?_⟩ <;> intro hh <;> simp_all

theorem startupInv_run (labels : List StartupLabel) :
    StartupInv (runStartup labels) := by
  unfold runStartup
  generalize hinit : initialStartupState = s0
  have h0 : StartupInv s0 := hinit ▸ startupInv_initial
  clear hinit
  induction labels generalizing s0 with
  | nil => exact h0
  | cons l rest ih => exact ih _ (startupInv_step l s0 h0)

theorem startupStep_spawn_flip (l : StartupLabel) (s : StartupState)
    (hpre : s.walletSpawned = false)
    (hpost : (startupStep l s).walletSpawned = true) :
    s.walletCmd = PromiseState.fulfilled := by
  cases l <;> simp only [startupStep] at hpost <;> split_ifs at hpost <;> simp_all

theorem startupStep_keeps_nodeFulfilled (l : StartupLabel) (s : StartupState)
    (h : s.nodeCmd = PromiseState.fulfilled) :
    (startupStep l s).nodeCmd = PromiseState.fulfilled := by
  cases l <;> simp only [startupStep] <;> split_ifs <;> simp_all

theorem pollStep_dead (e : PollEvent) (s : PollerState)
    (ht : s.timerActive = false) (hp : s.pendingAttempt = false) :
    pollStep e s = s := by
  cases e <;> simp [pollStep, ht, hp]

theorem runPollFrom_dead (events : List PollEvent) (s : PollerState)
    (ht : s.timerActive = false) (hp : s.pendingAttempt = false) :
    runPollFrom events s = s := by
  induction events with
  | nil => rfl
  | cons e rest ih =>
      show runPollFrom rest (pollStep e s) = s
      rw [pollStep_dead e s ht hp, ih]

/-!
## Claim theorems
-/

/-- C1: the `exit` event on `walletBackend.events` is emitted at most once
over the lifetime of a `Launcher` instance, no matter how many triggers
make `stop()` run: over any sequence of stop-completion runs from the
initial state the emission count never exceeds one, and a completion that
observes `exited = true` keeps it true and leaves the count unchanged. -/
theorem exit_event_emitted_at_most_once :
    (∀ l : List (ServiceExitStatus × ServiceExitStatus),
      (runStops l initialStopState).exitEmissions ≤ 1) ∧
    (∀ (w n : ServiceExitStatus) (s : StopState), s.exited = true →
      (stopCompletion w n s).1.exited = true ∧
      (stopCompletion w n s).1.exitEmissions = s.exitEmissions) := by
  constructor
  · intro l
    exact (stopInv_runStops l initialStopState stopInv_initial).1
  · intro w n s h
    unfold stopCompletion runCleanup
    cases hcf : s.cleanupFn <;> simp [h, hcf]

/-- Concrete instance of the C1 theorem: two stop completions from the
initial state emit at most once; a completion on an already-exited state
keeps the flag and the count. -/
theorem exit_event_emitted_at_most_once_witness :
    (runStops [(ServiceExitStatus.unknown, ServiceExitStatus.unknown),
        (ServiceExitStatus.unknown, ServiceExitStatus.unknown)]
      initialStopState).exitEmissions ≤ 1 ∧
    ((stopCompletion ServiceExitStatus.unknown ServiceExitStatus.unknown
        { exited := true, exitEmissions := 1, cleanupFn := CleanupFn.noopFn,
          offLog := signalList }).1.exited = true ∧
      (stopCompletion ServiceExitStatus.unknown ServiceExitStatus.unknown
        { exited := true, exitEmissions := 1, cleanupFn := CleanupFn.noopFn,
          offLog := signalList }).1.exitEmissions = 1) :=
  ⟨exit_event_emitted_at_most_once.1 _,
   exit_event_emitted_at_most_once.2 ServiceExitStatus.unknown
     ServiceExitStatus.unknown _ rfl⟩

/-- C2: the wallet service start begins strictly after the node start
command promise has resolved: whenever a scheduler event flips
`walletSpawned` from false to true in a reachable state, the node start
command is already fulfilled in the pre-state and still fulfilled in the
post-state — enforced by the chaining `wallet = node.then(...)` of
`makeServiceCommands` (line 335), not by timing. When the node command
rejects instead, the wallet start never begins (claim C6). -/
theorem wallet_start_begins_after_node_command_resolves
    (labels : List StartupLabel) (l : StartupLabel)
    (hpre : (runStartup labels).walletSpawned = false)
    (hpost : (startupStep l (runStartup labels)).walletSpawned = true) :
    (runStartup labels).nodeCmd = PromiseState.fulfilled ∧
    (startupStep l (runStartup labels)).nodeCmd = PromiseState.fulfilled := by
  have hinv := startupInv_run labels
  have hcmd := startupStep_spawn_flip l (runStartup labels) hpre hpost
  have hnode := hinv.1 (hinv.2.1 hcmd)
  exact ⟨hnode, startupStep_keeps_nodeFulfilled l _ hnode⟩

/-- Concrete instance of the C2 theorem: a run that resolves the node
command, invokes the wallet command callback and fulfils it, then spawns
the wallet. -/
theorem wallet_start_begins_after_node_command_resolves_witness :
    (runStartup [StartupLabel.nodeCmdResolve, StartupLabel.walletThenRun,
        StartupLabel.walletCmdResolve]).nodeCmd = PromiseState.fulfilled ∧
    (startupStep StartupLabel.walletSpawn
      (runStartup [StartupLabel.nodeCmdResolve, StartupLabel.walletThenRun,
        StartupLabel.walletCmdResolve])).nodeCmd = PromiseState.fulfilled :=
  wallet_start_begins_after_node_command_resolves
    [StartupLabel.nodeCmdResolve, StartupLabel.walletThenRun,
      StartupLabel.walletCmdResolve]
    StartupLabel.walletSpawn (by decide) (by decide)

/-- C3 counterexample: in the executor body of `Launcher.start` the two
event subscriptions are NOT registered before the operations capable of
triggering them — they come last (lines 230-233), after both start
invocations and the poller launch (lines 223-228). -/
theorem start_subscriptions_not_registered_first :
    ¬ specSubscriptionsFirst := by
  decide

/-- C3 amended: the `ready` and `exit` subscriptions are registered after
`nodeService.start()`, `walletService.start()` and the poller launch, but
still inside the same synchronous executor block (the subscriptions are the
final two operations of the body); since those operations only emit from
asynchronous continuations delivered after the block returns, every
scheduled emission finds its handler registered and no emission is lost. -/
theorem start_subscriptions_last_but_no_emission_lost :
    startExecutorBody.map StartOp.isSubscription =
      [false, false, false, true, true] ∧
    (∀ causes : StartOp → List EmitKind,
      (runStartBody causes).scheduled.all
        (fun e => emissionDelivered (runStartBody causes) e) = true) := by
  refine ⟨rfl, fun causes => ?_⟩
  rw [List.all_eq_true]
  intro e he
  cases e <;> rfl

/-- C4: `Launcher.stop` forwards one and the same timeout to both service
handles (both invocations issued before either is awaited), defaults the
timeout to 60 when the argument is omitted, and its completion handler
returns the combined status built from the two results whatever the prior
value of the `exited` flag was. -/
theorem stop_forwards_timeout_and_returns_combined_status :
    (∀ t : Nat, stopServiceCalls (some t) =
      [(ServiceId.wallet, t), (ServiceId.node, t)]) ∧
    stopServiceCalls none = [(ServiceId.wallet, 60), (ServiceId.node, 60)] ∧
    (∀ (w n : ServiceExitStatus) (s : StopState),
      (stopCompletion w n s).2 = ⟨w, n⟩) :=
  ⟨fun _ => rfl, rfl, fun _ _ _ => rfl⟩

/-- C5 counterexample: the claimed property fails on the program. In
`pollerRaceTrace` the stop predicate is true at the second tick, before any
connection attempt has succeeded, and that tick does clear the timer — but
the attempt already in flight (started by the first tick and not destroyed
by the stop branch, which runs only `clearInterval`, line 253) succeeds
afterwards and its callback fires ready all the same. -/
theorem poller_pending_connect_fires_ready_after_halt :
    stopWaiting ServiceStatus.Stopping ServiceStatus.Started = true ∧
    (runPoll (pollerRaceTrace.take 1)).readyFired = false ∧
    (runPoll (pollerRaceTrace.take 1)).pendingAttempt = true ∧
    (runPoll (pollerRaceTrace.take 2)).timerActive = false ∧
    (runPoll (pollerRaceTrace.take 2)).readyFired = false ∧
    (runPoll pollerRaceTrace).readyFired = true := by
  decide

/-- C5 amended: the stop predicate is true exactly when either status is
numerically past Started (that is, Stopping or Stopped). A tick that sees
it true clears the interval and does nothing else — it fires nothing and
starts no attempt, but also leaves an in-flight attempt alive. From any
state with the timer cleared and NO attempt in flight and ready not yet
fired, no later event ever fires the ready callback, starts an attempt, or
reactivates the timer; only a connection attempt already in flight at the
halt tick can still fire ready (the counterexample). -/
theorem poller_halt_tick_clears_timer_and_no_new_ready :
    (∀ ns ws : ServiceStatus, stopWaiting ns ws = true ↔
      (ns = ServiceStatus.Stopping ∨ ns = ServiceStatus.Stopped ∨
       ws = ServiceStatus.Stopping ∨ ws = ServiceStatus.Stopped)) ∧
    (∀ (ns ws : ServiceStatus) (port : Nat) (s : PollerState),
      stopWaiting ns ws = true → s.timerActive = true →
      pollStep (PollEvent.timerTick ns ws port) s =
        { s with timerActive := false }) ∧
    (∀ (events : List PollEvent) (s : PollerState),
      s.timerActive = false → s.pendingAttempt = false →
      s.readyFired = false →
      (runPollFrom events s).readyFired = false ∧
      (runPollFrom events s).pendingAttempt = false ∧
      (runPollFrom events s).timerActive = false) := by
  refine ⟨?_, ?_, ?_⟩
  · intro ns ws
    cases ns <;> cases ws <;> decide
  · intro ns ws port s hstop hact
    simp [pollStep, hact, hstop]
  · intro events s ht hp hready
    rw [runPollFrom_dead events s ht hp]
    exact ⟨hready, hp, ht⟩

/-- Concrete instance of the amended C5 theorem: a halt tick on the fresh
poller state, which has no attempt in flight, clears the timer; and from
the resulting state no later event fires ready. -/
theorem poller_halt_tick_clears_timer_and_no_new_ready_witness :
    pollStep
        (PollEvent.timerTick ServiceStatus.Stopping ServiceStatus.Started 8090)
        initialPollerState =
      { initialPollerState with timerActive := false } ∧
    (runPollFrom
      [PollEvent.connectSuccess,
        PollEvent.timerTick ServiceStatus.Stopped ServiceStatus.Stopped 8090]
      { initialPollerState with timerActive := false }).readyFired = false :=
  ⟨poller_halt_tick_clears_timer_and_no_new_ready.2.1 ServiceStatus.Stopping
      ServiceStatus.Started 8090 initialPollerState (by decide) rfl,
   (poller_halt_tick_clears_timer_and_no_new_ready.2.2
      [PollEvent.connectSuccess,
        PollEvent.timerTick ServiceStatus.Stopped ServiceStatus.Stopped 8090]
      { initialPollerState with timerActive := false } rfl rfl rfl).1⟩

/-- C6: if the node start command rejects, the wallet start command
callback never runs and the wallet service is never started, in every
reachable state; and the deterministic reaction chain the code runs in
that case (node command rejected, node service Stopped, `statusChanged`
observer driving one `stop()` completion) ends with the promise returned
by `Launcher.start` rejected. -/
theorem node_start_failure_blocks_wallet_and_rejects :
    (∀ labels : List StartupLabel,
      (runStartup labels).nodeCmd = PromiseState.rejected →
      (runStartup labels).walletExeInvoked = false ∧
      (runStartup labels).walletSpawned = false) ∧
    ((runStartup nodeFailureLabels).nodeCmd = PromiseState.rejected ∧
     (runStartup nodeFailureLabels).walletExeInvoked = false ∧
     (runStartup nodeFailureLabels).walletSpawned = false ∧
     (runStartup nodeFailureLabels).startRejected = true) := by
  refine ⟨fun labels h => (startupInv_run labels).2.2.2 h, ?_⟩
  decide

/-- Concrete instance of the C6 theorem at the one-step rejection run. -/
theorem node_start_failure_blocks_wallet_and_rejects_witness :
    (runStartup [StartupLabel.nodeCmdReject]).walletExeInvoked = false ∧
    (runStartup [StartupLabel.nodeCmdReject]).walletSpawned = false :=
  node_start_failure_blocks_wallet_and_rejects.1
    [StartupLabel.nodeCmdReject] (by decide)

/-- C7 counterexample: on a combined status whose two lines differ, the
source rendering (wallet line first, from the field order of `ExitStatus`
and the insertion order of the object built in `stop`) differs from the
order the claim states (node line first). -/
theorem exit_status_message_order_counterexample :
    exitStatusMessage
      ⟨ServiceExitStatus.exited 0, ServiceExitStatus.signaled "SIGTERM"⟩ ≠
    exitStatusMessageNodeFirst
      ⟨ServiceExitStatus.exited 0, ServiceExitStatus.signaled "SIGTERM"⟩ := by
  decide

/-- C7 amended: `exitStatusMessage` is pure and total over all `ExitStatus`
values and renders one line per sub-service joined by a newline, in the
stable field order of the record — the dependent (wallet) line first, then
the dependency (node) line. -/
theorem exit_status_message_renders_wallet_then_node (status : ExitStatus) :
    exitStatusMessage status =
      serviceExitStatusMessage status.wallet ++ "\n" ++
        serviceExitStatusMessage status.node := by
  cases status with
  | mk w n => rfl

/-- C8: the installed handlers cover exactly the signals SIGINT, SIGTERM,
SIGHUP and SIGBREAK; on receipt of any of them the handler logs the signal
and invokes stop with timeout 0 on the wallet service and on the node
service, each stop future getting a rejection handler; and a rejected stop
is swallowed by `passthroughErrorLogger`, so nothing propagates out of the
signal-handler context. -/
theorem signal_handler_set_and_zero_timeout_stop :
    signalList = ["SIGINT", "SIGTERM", "SIGHUP", "SIGBREAK"] ∧
    (∀ signal : String, signalHandlerActions signal =
      [HandlerAction.logSignal signal,
       HandlerAction.stopService ServiceId.wallet 0 true,
       HandlerAction.stopService ServiceId.node 0 true]) ∧
    (∀ outcome : Except String ServiceExitStatus,
      caughtStopOutcome outcome = Except.ok ()) :=
  ⟨rfl, fun signal => rfl, fun outcome => by cases outcome <;> rfl⟩

/-- C9: the cleanup operation deregisters every installed handler on its
first invocation, is the identity once the stored closure is `noop`, is
idempotent on every state, and over any number of stop completions the
`process.off` log stays either empty or exactly one pass over the signal
list — never a double deregistration. -/
theorem cleanup_signal_handlers_idempotent :
    ((runCleanup initialStopState).offLog = signalList ∧
     (runCleanup initialStopState).cleanupFn = CleanupFn.noopFn) ∧
    (∀ s : StopState, s.cleanupFn = CleanupFn.noopFn → runCleanup s = s) ∧
    (∀ s : StopState, runCleanup (runCleanup s) = runCleanup s) ∧
    (∀ l : List (ServiceExitStatus × ServiceExitStatus),
      (runStops l initialStopState).offLog = [] ∨
      (runStops l initialStopState).offLog = signalList) := by
  refine ⟨⟨rfl, rfl⟩, ?_, ?_, ?_⟩
  · intro s h
    simp [runCleanup, h]
  · intro s
    cases h : s.cleanupFn <;> simp [runCleanup, h]
  · intro l
    have hinv := stopInv_runStops l initialStopState stopInv_initial
    cases h : (runStops l initialStopState).cleanupFn
    · exact Or.inl (hinv.2.2.1 h)
    · exact Or.inr (hinv.2.2.2 h)

/-- Concrete instance of the C9 theorem: running cleanup on a state whose
closure is already `noop` changes nothing. -/
theorem cleanup_signal_handlers_idempotent_witness :
    runCleanup
        { exited := true, exitEmissions := 1,
          cleanupFn := CleanupFn.noopFn, offLog := signalList } =
      { exited := true, exitEmissions := 1,
        cleanupFn := CleanupFn.noopFn, offLog := signalList } :=
  cleanup_signal_handlers_idempotent.2.1 _ rfl

/-- C10: a config that omits `installSignalHandlers` makes the constructor
install the process signal handlers (the destructuring default is true);
handlers are skipped exactly when the field is explicitly false. -/
theorem install_signal_handlers_defaults_true (config : LaunchConfigSignals) :
    (config.installSignalHandlers = none →
      constructorInstallsHandlers config = true) ∧
    (constructorInstallsHandlers config = false ↔
      config.installSignalHandlers = some false) := by
  cases h : config.installSignalHandlers with
  | none => constructor <;> simp [constructorInstallsHandlers, h]
  | some b => cases b <;> constructor <;> simp [constructorInstallsHandlers, h]

/-- Concrete instance of the C10 theorem at a config omitting the field. -/
theorem install_signal_handlers_defaults_true_witness :
    constructorInstallsHandlers { installSignalHandlers := none } = true :=
  (install_signal_handlers_defaults_true { installSignalHandlers := none }).1 rfl

end CardanoLauncher
